import Mathlib

/-!
Verification of the order-intake handler (`src/lambda/Place-Order.py`).

The Python source is shallowly embedded: pure validation functions become Lean
functions, the pydantic model validation becomes an explicit error-accumulating
validator, and the handler's external effects (wall clock, UUID generation, the
Cloudflare turnstile call, DNS resolution, the blocklist, and the two SES
`send_email` calls) are modelled by an `Env` record of oracle outcomes.
Python decimals (`float`) are modelled as rationals `ℚ`, machine integers as `Int`.
-/

namespace PlaceOrder

open RegularExpression

/-! ## Phone pattern

The source compiles `PHONE_PATTERN = re.compile(r'^(\+?1 *[ -.])?(\d{3}) *[ .-]?(\d{3}) *[ .-]?(\d{4}) *$')`
and `validate_phone_format` accepts exactly the strings `PHONE_PATTERN.match` accepts.
We embed the pattern as a `RegularExpression Char`.  Note two subtleties of the
source pattern, both preserved here:
* `[ -.]` is an ASCII character *range* from space (0x20) to `.` (0x2E); besides
  space, hyphen and dot it also contains `!"#$%&'()*+,`;
* Python's `$` also matches just before a single trailing newline, so the
  pattern tolerates one final `'\n'`.
-/

/-- Character class: the regex `[c₁c₂…]`, one character out of the given list. -/
def classRE (l : List Char) : RegularExpression Char :=
  l.foldr (fun c r => char c + r) 0

/-- The digits matched by `\d` (ASCII digits, code points 0x30 … 0x39). -/
def digitChars : List Char := (List.range 10).map fun n => Char.ofNat (48 + n)

/-- The character range `[ -.]` of the source pattern: code points 0x20 … 0x2E. -/
def sepRangeChars : List Char := (List.range 15).map fun n => Char.ofNat (32 + n)

/-- The character class `[ .-]` of the source pattern (here `-` is literal). -/
def sepChars : List Char := [' ', '.', '-']

/-- The regex `r?`. -/
def optRE (r : RegularExpression Char) : RegularExpression Char := 1 + r

/-- The regex `" *"`: zero or more spaces. -/
def spaceStar : RegularExpression Char := (char ' ').star

/-- The regex `\d`. -/
def digitRE : RegularExpression Char := classRE digitChars

/-- `PHONE_PATTERN`, the compiled pattern of the source (anchored, as used by
`re.match` together with the final `$`).  Concatenation is written right-nested;
regex concatenation is semantically associative so this is the same language. -/
def PHONE_PATTERN : RegularExpression Char :=
  optRE (optRE (char '+') * (char '1' * (spaceStar * classRE sepRangeChars))) *
  ((digitRE * (digitRE * digitRE)) *
  ((spaceStar * optRE (classRE sepChars)) *
  ((digitRE * (digitRE * digitRE)) *
  ((spaceStar * optRE (classRE sepChars)) *
  ((digitRE * (digitRE * (digitRE * digitRE))) *
  (spaceStar * optRE (char '\n')))))))

/-- `PHONE_PATTERN.match(v)` of the source, as a Boolean matcher on strings. -/
def phoneMatches (s : String) : Bool := PHONE_PATTERN.rmatch s.data

/-- `OrderRequest.validate_phone_format`: rejects any string the pattern does
not match, with the source's error message. -/
def validate_phone_format (v : String) : Except String String :=
  if phoneMatches v then .ok v else .error "Please enter a valid phone number."

/-! ### Characterizations of the pattern's pieces -/

/-! ## Pydantic data model and validation

The request body is parsed by pydantic (`CartItem`, `Cart`, `OrderRequest`).
We embed the already-typed raw payload and replay pydantic's validation
semantics: fields validate in declaration order; for one field the `Field`
constraint runs first and the `@validator`s run next in definition order,
stopping at that field's first failure; failures of *different* fields are all
collected into the single resulting error list; an earlier field appears in a
later validator's `values` only when it validated successfully. -/

/-- Raw `CartItem` payload: `qty`, `price`, `pricePerUnit`, `imageUrl`. -/
structure RawCartItem where
  qty : Int
  price : ℚ
  pricePerUnit : ℚ
  imageUrl : String
deriving DecidableEq

/-- Raw `Cart` payload: the `items` mapping (in insertion order), `totalQty`,
`totalPrice`. -/
structure RawCart where
  items : List (String × RawCartItem)
  totalQty : Int
  totalPrice : ℚ
deriving DecidableEq

/-- Raw `OrderRequest` payload. -/
structure RawOrderRequest where
  phone : String
  email : String
  verification : String
  shipping : String
  order : RawCart
  cf_token : String
deriving DecidableEq

/-- One validation error, tagged by the constraint that produced it. -/
inductive VError where
  | itemQtyGt (key : String)
  | itemPriceGe (key : String)
  | itemUnitGe (key : String)
  | totalQtyGe
  | minOrder (msg : String)
  | qtyMismatch (msg : String)
  | totalPriceGe
  | priceMismatch (msg : String)
  | phoneFormat (msg : String)
  | emailFormat
deriving DecidableEq

/-- `Cart.validate_min_quantity`. -/
def validate_min_quantity (v : Int) : Except String Int :=
  if v < 3 then .error "Our minimum order size for delivery is 3 items." else .ok v

/-- `sum(item.price for item in values['items'].values())`. -/
def sumPrices (items : List (String × RawCartItem)) : ℚ :=
  (items.map fun kv => kv.2.price).sum

/-- `sum(item.qty for item in values['items'].values())`. -/
def sumQtys (items : List (String × RawCartItem)) : Int :=
  (items.map fun kv => kv.2.qty).sum

/-- Python's `abs` on our rational model of floats. -/
def absQ (q : ℚ) : ℚ := if q < 0 then -q else q

/-- `Cart.validate_total_price`.  `itemsVal` is `values.get('items')`: `none`
when the `items` field failed validation, in which case the check is skipped.
The float literal `0.01` is modelled as the rational `1/100`. -/
def validate_total_price (itemsVal : Option (List (String × RawCartItem))) (v : ℚ) :
    Except String ℚ :=
  match itemsVal with
  | some items =>
      if absQ (sumPrices items - v) > 1 / 100 then
        .error "Total price does not match sum of item prices"
      else .ok v
  | none => .ok v

/-- `Cart.validate_total_qty`. -/
def validate_total_qty (itemsVal : Option (List (String × RawCartItem))) (v : Int) :
    Except String Int :=
  match itemsVal with
  | some items =>
      if sumQtys items ≠ v then
        .error "Total quantity does not match sum of item quantities"
      else .ok v
  | none => .ok v

/-- Validation of one `CartItem`: `qty` has `Field(gt=0)`, `price` and
`pricePerUnit` have `Field(ge=0)`; the three fields validate independently. -/
def validateItem (key : String) (it : RawCartItem) : List VError :=
  (if it.qty ≤ 0 then [.itemQtyGt key] else []) ++
  (if it.price < 0 then [.itemPriceGe key] else []) ++
  (if it.pricePerUnit < 0 then [.itemUnitGe key] else [])

/-- Validation of the `items` dict: per-entry errors accumulate. -/
def validateItems (items : List (String × RawCartItem)) : List VError :=
  (items.map fun kv => validateItem kv.1 kv.2).flatten

/-- The error chain of the `totalQty` field: `Field(ge=0)`, then
`validate_min_quantity`, then `validate_total_qty` (definition order),
stopping at the first failure. -/
def totalQtyErrors (itemsVal : Option (List (String × RawCartItem))) (v : Int) :
    List VError :=
  if v < 0 then [.totalQtyGe]
  else
    match validate_min_quantity v with
    | .error m => [.minOrder m]
    | .ok v' =>
      match validate_total_qty itemsVal v' with
      | .error m => [.qtyMismatch m]
      | .ok _ => []

/-- The error chain of the `totalPrice` field: `Field(ge=0)`, then
`validate_total_price`. -/
def totalPriceErrors (itemsVal : Option (List (String × RawCartItem))) (v : ℚ) :
    List VError :=
  if v < 0 then [.totalPriceGe]
  else
    match validate_total_price itemsVal v with
    | .error m => [.priceMismatch m]
    | .ok _ => []

/-- Validation of a `Cart`: fields `items`, `totalQty`, `totalPrice` in
declaration order, each field's errors accumulated; `values['items']` is
present for the later validators only when `items` validated cleanly. -/
def validateCart (c : RawCart) : List VError :=
  let itemErrs := validateItems c.items
  let itemsVal := if itemErrs = [] then some c.items else none
  itemErrs ++ totalQtyErrors itemsVal c.totalQty ++ totalPriceErrors itemsVal c.totalPrice

/-- Python's `str.split(sep)` for a one-character separator, on character
lists: always returns at least one (possibly empty) chunk. -/
def splitOnChar (sep : Char) : List Char → List (List Char)
  | [] => [[]]
  | c :: rest =>
    match splitOnChar sep rest with
    | [] => if c = sep then [[], [c]] else [[c]]
    | h :: t => if c = sep then [] :: h :: t else (c :: h) :: t

/-- Modelled from the spec: the `EmailStr` syntax check is a pydantic/library
facility, not code of this repository; per the spec (§4.1) it checks
"standard email syntax (local@domain with valid characters)".  We model the
shape `local@domain` with nonempty local part and a dotted nonempty domain. -/
def emailSyntaxOk (e : String) : Bool :=
  match splitOnChar '@' e.data with
  | [l, d] => !l.isEmpty && !d.isEmpty && d.contains '.'
  | _ => false

/-- Validation of an `OrderRequest`: fields `phone`, `email`, `verification`,
`shipping`, `order`, `cf_token` in declaration order; only `phone` (custom
validator), `email` (`EmailStr`) and `order` (nested `Cart`) can fail, and
their errors accumulate in field order. -/
def validateOrderRequest (r : RawOrderRequest) : List VError :=
  (match validate_phone_format r.phone with
   | .error m => [.phoneFormat m]
   | .ok _ => []) ++
  (if emailSyntaxOk r.email then [] else [.emailFormat]) ++
  validateCart r.order

/-! ## Business hours -/

/-- Days of the week, as produced by `now.strftime('%A')`. -/
inductive Weekday where
  | monday | tuesday | wednesday | thursday | friday | saturday | sunday
deriving DecidableEq

/-- `strftime('%A')`: the English day name. -/
def Weekday.name : Weekday → String
  | .monday => "Monday"
  | .tuesday => "Tuesday"
  | .wednesday => "Wednesday"
  | .thursday => "Thursday"
  | .friday => "Friday"
  | .saturday => "Saturday"
  | .sunday => "Sunday"

/-- `validate_business_hours`, with the current US-Eastern wall clock supplied
as the day of week and the hour (0 … 23). -/
def validate_business_hours (day : Weekday) (hour : Nat) : Bool × String :=
  if day.name = "Sunday" then (false, "Our business hours are Mon-Sat 8am-8pm.")
  else if hour < 8 ∨ hour ≥ 20 then (false, "Our business hours are Mon-Sat 8am-8pm.")
  else (true, "")

/-! ## External-effect oracles and the handler

`process_order` consults the wall clock, `uuid.uuid4()`, the Cloudflare
turnstile endpoint, the disposable-domain blocklist, the DNS resolver and the
SES client.  `Env` fixes the outcome of each of those effects for one request,
so the handler becomes a pure function of the validated request and the `Env`. -/

/-- Outcome of one `dns.resolver.resolve(domain, rtype)` call: either it
returns a record set (possibly empty) or it raises. -/
inductive DnsOutcome where
  | records (nonempty : Bool)
  | raises
deriving DecidableEq

/-- Oracle outcomes of the handler's external effects for one request.
`turnstile = none` models the verification HTTP call (or its JSON decoding)
raising; `ownerSendOk` / `customerSendOk` tell whether each `ses_client.send_email`
call returns normally (a raising call is treated as not having delivered). -/
structure Env where
  day : Weekday
  hour : Nat
  uuid : String
  turnstile : Option Bool
  blocklist : String → Bool
  mxLookup : String → DnsOutcome
  nsLookup : String → DnsOutcome
  ownerSendOk : Bool
  customerSendOk : Bool

/-- `email.split('@')[-1]`: the part after the last `@` (the whole string if
there is no `@`). -/
def domainOf (email : String) : String :=
  String.mk ((splitOnChar '@' email.data).getLastD [])

/-- `str.lower()` (ASCII case mapping, which covers the addresses at play). -/
def lowerStr (s : String) : String := String.mk (s.data.map Char.toLower)

/-- `is_domain_real`: blocklist membership, then MX resolution, then NS
resolution; every raising resolver call is caught by the function's own
`except` clause and turned into `False`, so the function is total (fail-closed). -/
def is_domain_real (env : Env) (email : String) : Bool :=
  let domain := domainOf email
  if env.blocklist domain then false
  else
    match env.mxLookup domain with
    | .raises => false
    | .records mxNonempty =>
      if !mxNonempty then false
      else
        match env.nsLookup domain with
        | .raises => false
        | .records nsNonempty => if !nsNonempty then false else true

/-- What the notification dispatch did: how many `send_email` calls were made
and which of the two emails was actually delivered. -/
structure DispatchRecord where
  sendCalls : Nat
  ownerDelivered : Bool
  customerDelivered : Bool
deriving DecidableEq

/-- No dispatch at all. -/
def noDispatch : DispatchRecord := ⟨0, false, false⟩

/-- `send_order_emails`: the owner email is sent first; if that call raises,
the `except` clause returns `False` and the customer call is never made; if the
customer call raises after a successful owner call, the owner email stays
delivered but the function still returns `False`. -/
def send_order_emails (env : Env) : Bool × DispatchRecord :=
  if env.ownerSendOk then
    if env.customerSendOk then (true, ⟨2, true, true⟩)
    else (false, ⟨2, true, false⟩)
  else (false, ⟨1, false, false⟩)

/-- `str(uuid.uuid4())[:8].upper()`. -/
def orderIdOf (uuid : String) : String := String.mk ((uuid.data.take 8).map Char.toUpper)

/-- The handler's externally visible outcome: a 200 JSON success body, or an
`HTTPException` with a status and detail message. -/
inductive HandlerOutcome where
  | accepted (orderId : String) (message : String)
  | rejected (status : Nat) (detail : String)
deriving DecidableEq

/-- HTTP status of an outcome. -/
def HandlerOutcome.status : HandlerOutcome → Nat
  | .accepted _ _ => 200
  | .rejected s _ => s

/-- The `success` flag of the response body (`true` only on the 200 body). -/
def HandlerOutcome.success : HandlerOutcome → Bool
  | .accepted _ _ => true
  | .rejected _ _ => false

/-- Outcome plus the dispatch record of the request. -/
structure HandlerResult where
  outcome : HandlerOutcome
  dispatch : DispatchRecord
deriving DecidableEq

/-- `process_order`, for a request that passed schema validation (FastAPI runs
the handler only then).  Gate order is the source's: business hours, honeypot,
turnstile, email domain, dispatch.  A raising turnstile call is caught by the
handler's final `except Exception` clause, which maps it to a 500 with the
generic network message; `HTTPException`s pass through unchanged. -/
def process_order (env : Env) (req : RawOrderRequest) : HandlerResult :=
  let hoursRes := validate_business_hours env.day env.hour
  if !hoursRes.1 then ⟨.rejected 400 hoursRes.2, noDispatch⟩
  else
    let order_id := orderIdOf env.uuid
    if req.verification ≠ "" then
      ⟨.accepted order_id "Order placed successfully", noDispatch⟩
    else
      match env.turnstile with
      | none => ⟨.rejected 500 "Network error. Please try again.", noDispatch⟩
      | some false => ⟨.rejected 400 "Security check failed", noDispatch⟩
      | some true =>
        if !is_domain_real env (lowerStr req.email) then
          ⟨.rejected 400 "Please provide a valid email address.", noDispatch⟩
        else
          let sendRes := send_order_emails env
          if !sendRes.1 then
            ⟨.rejected 500 "Failed to send order confirmation. Please try again.", sendRes.2⟩
          else ⟨.accepted order_id "Order placed successfully", sendRes.2⟩

/-! ## Structural description of the accepted phone strings

`PhoneShape` spells the language of `PHONE_PATTERN` out as an explicit
decomposition of the string, piece by piece, with no mention of regular
expressions; the theorem `phone_pattern_form` below proves the two agree. -/

/-- A list all of whose characters are spaces. -/
def allSpaces (u : List Char) : Prop := ∀ c ∈ u, c = ' '

/-- At most one character, drawn from `l`. -/
def optCharOf (l : List Char) (u : List Char) : Prop := u = [] ∨ ∃ c ∈ l, u = [c]

/-- The prefix part `(\+?1 *[ -.])?`: either absent, or an optional `+`, the
digit `1`, any number of spaces, and then exactly one character of the ASCII
range space … `.`. -/
def preShape (u : List Char) : Prop :=
  u = [] ∨
    ∃ p w c, (p = [] ∨ p = ['+']) ∧ allSpaces w ∧ c ∈ sepRangeChars ∧
      u = p ++ '1' :: (w ++ [c])

/-- A group separator ` *[ .-]?`: any number of spaces followed by at most one
space, dot or hyphen. -/
def gapShape (u : List Char) : Prop :=
  ∃ w t, allSpaces w ∧ optCharOf sepChars t ∧ u = w ++ t

/-- Exactly three digits. -/
def dig3 (u : List Char) : Prop :=
  ∃ c1 c2 c3, c1 ∈ digitChars ∧ c2 ∈ digitChars ∧ c3 ∈ digitChars ∧ u = [c1, c2, c3]

/-- Exactly four digits. -/
def dig4 (u : List Char) : Prop :=
  ∃ c1 c2 c3 c4, c1 ∈ digitChars ∧ c2 ∈ digitChars ∧ c3 ∈ digitChars ∧ c4 ∈ digitChars ∧
    u = [c1, c2, c3, c4]

/-- The tail ` *$`: trailing spaces, and (because Python's `$` also matches
just before a final newline) at most one final `'\n'`. -/
def tailShape (u : List Char) : Prop :=
  ∃ w nl, allSpaces w ∧ (nl = [] ∨ nl = ['\n']) ∧ u = w ++ nl

/-- The full decomposition of a string accepted by `PHONE_PATTERN`. -/
def PhoneShape (s : List Char) : Prop :=
  ∃ p g1 a g2 b g3 t,
    preShape p ∧ dig3 g1 ∧ gapShape a ∧ dig3 g2 ∧ gapShape b ∧ dig4 g3 ∧ tailShape t ∧
    s = p ++ (g1 ++ (a ++ (g2 ++ (b ++ (g3 ++ t)))))

/-- Modelled from the spec: the claimed phone-number form, "optional `+1` or
`1` prefix, then 3-3-4 digit groups separated by any combination of spaces,
dots, or hyphens", read generously (separators are arbitrary, possibly empty,
strings over space/dot/hyphen).  This is the comparison point for the claim
that the validator accepts exactly the strings of this form. -/
def PHONE_SPEC_FORM : RegularExpression Char :=
  optRE (optRE (char '+') * char '1') *
  ((digitRE * (digitRE * digitRE)) *
  ((classRE sepChars).star *
  ((digitRE * (digitRE * digitRE)) *
  ((classRE sepChars).star *
  (digitRE * (digitRE * (digitRE * digitRE)))))))

/-! ## Concrete fixtures (used by witnesses and counterexamples) -/

/-- Three line items summing to quantity 3 and price 20. -/
def goodItems : List (String × RawCartItem) :=
  [("Apples", ⟨1, 10, 10, "imgA"⟩), ("Pears", ⟨1, 5, 5, "imgB"⟩),
   ("Plums", ⟨1, 5, 5, "imgC"⟩)]

/-- A consistent cart. -/
def goodCart : RawCart := ⟨goodItems, 3, 20⟩

/-- A structurally valid human request (empty honeypot field). -/
def goodReq : RawOrderRequest :=
  ⟨"555-123-4567", "user@example.com", "", "12 Main St", goodCart, "turnstile-token"⟩

/-- The same request with a filled honeypot field. -/
def botReq : RawOrderRequest := { goodReq with verification := "gotcha" }

/-- A consistent cart whose declared quantity (2) is below the minimum. -/
def lowQtyCart : RawCart :=
  ⟨[("Apples", ⟨1, 10, 10, "imgA"⟩), ("Pears", ⟨1, 10, 10, "imgB"⟩)], 2, 20⟩

/-- A payload that violates two constraints in two distinct fields: the phone
format and the minimum order size. -/
def badPhoneLowQtyReq : RawOrderRequest :=
  { phone := "12345", email := "user@example.com", verification := "", shipping := "x",
    order := lowQtyCart, cf_token := "turnstile-token" }

/-- Benign oracle outcomes: Monday noon, turnstile passes, domain resolves,
both emails send. -/
def baseEnv : Env :=
  { day := .monday, hour := 12, uuid := "0a1b2c3d-4e5f-6789-abcd-ef0123456789",
    turnstile := some true, blocklist := fun _ => false,
    mxLookup := fun _ => .records true, nsLookup := fun _ => .records true,
    ownerSendOk := true, customerSendOk := true }

/-- Same, but the request arrives on a Sunday. -/
def sundayEnv : Env := { baseEnv with day := .sunday }

/-- Same as `baseEnv`, but the turnstile HTTP call raises. -/
def turnstileDownEnv : Env := { baseEnv with turnstile := none }

/-- Same as `baseEnv`, but the turnstile service answers negatively. -/
def turnstileNoEnv : Env := { baseEnv with turnstile := some false }

/-- Same as `baseEnv`, but MX resolution raises. -/
def mxRaisesEnv : Env := { baseEnv with mxLookup := fun _ => .raises }

/-- Same as `baseEnv`, but the customer `send_email` call fails after the
owner email already went out. -/
def ownerOnlyEnv : Env := { baseEnv with customerSendOk := false }

/-- The sixteen lowercase hexadecimal digits `str(uuid.uuid4())` draws its
first eight characters from. -/
def hexLowerChars : List Char :=
  digitChars ++ ((List.range 6).map fun n => Char.ofNat (97 + n))

/-! # Theorems -/

/-! ## Regex-matcher characterizations -/

theorem classRE_rmatch (l : List Char) (s : List Char) :
    (classRE l).rmatch s = true ↔ ∃ c ∈ l, s = [c] := by
  induction l with
  | nil =>
    simp [classRE, zero_rmatch]
  | cons a t ih =>
    simp only [classRE, List.foldr_cons] at *
    rw [add_rmatch_iff]
    constructor
    · rintro (h | h)
      · exact ⟨a, List.mem_cons_self a t, (char_rmatch_iff a s).mp h⟩
      · obtain ⟨c, hc, rfl⟩ := ih.mp h
        exact ⟨c, List.mem_cons_of_mem a hc, rfl⟩
    · rintro ⟨c, hc, rfl⟩
      rcases List.mem_cons.mp hc with rfl | hc
      · exact Or.inl ((char_rmatch_iff c [c]).mpr rfl)
      · exact Or.inr (ih.mpr ⟨c, hc, rfl⟩)

theorem optRE_rmatch (r : RegularExpression Char) (s : List Char) :
    (optRE r).rmatch s = true ↔ s = [] ∨ r.rmatch s = true := by
  rw [optRE, add_rmatch_iff, one_rmatch_iff]

theorem flatten_map_singleton (s : List Char) :
    (s.map fun c => [c]).flatten = s := by
  induction s with
  | nil => rfl
  | cons a t ih => simp [ih]

theorem spaceStar_rmatch (s : List Char) :
    spaceStar.rmatch s = true ↔ allSpaces s := by
  rw [spaceStar, star_rmatch_iff]
  constructor
  · rintro ⟨S, rfl, hS⟩
    intro c hc
    rw [List.mem_flatten] at hc
    obtain ⟨t, ht, hct⟩ := hc
    have := ((char_rmatch_iff ' ' t).mp (hS t ht).2)
    subst this
    rw [List.mem_singleton] at hct
    exact hct
  · intro h
    refine ⟨s.map fun c => [c], (flatten_map_singleton s).symm, ?_⟩
    intro t ht
    rw [List.mem_map] at ht
    obtain ⟨c, hc, rfl⟩ := ht
    exact ⟨List.cons_ne_nil c [], (char_rmatch_iff ' ' [c]).mpr (by rw [h c hc])⟩

/-! ## Validation-layer lemmas -/

theorem validateItem_shapes (k : String) (it : RawCartItem) (x : VError)
    (hx : x ∈ validateItem k it) :
    (∃ k', x = .itemQtyGt k') ∨ (∃ k', x = .itemPriceGe k') ∨ (∃ k', x = .itemUnitGe k') := by
  unfold validateItem at hx
  rcases List.mem_append.mp hx with h | h
  · rcases List.mem_append.mp h with h' | h'
    · split at h' <;> simp at h'
      exact Or.inl ⟨k, h'⟩
    · split at h' <;> simp at h'
      exact Or.inr (Or.inl ⟨k, h'⟩)
  · split at h <;> simp at h
    exact Or.inr (Or.inr ⟨k, h⟩)

theorem validateItems_shapes (items : List (String × RawCartItem)) (x : VError)
    (hx : x ∈ validateItems items) :
    (∃ k, x = .itemQtyGt k) ∨ (∃ k, x = .itemPriceGe k) ∨ (∃ k, x = .itemUnitGe k) := by
  unfold validateItems at hx
  rw [List.mem_flatten] at hx
  obtain ⟨l, hl, hxl⟩ := hx
  rw [List.mem_map] at hl
  obtain ⟨kv, _, rfl⟩ := hl
  exact validateItem_shapes kv.1 kv.2 x hxl

theorem priceMismatch_not_qty (itemsVal : Option (List (String × RawCartItem))) (v : Int)
    (m : String) : VError.priceMismatch m ∉ totalQtyErrors itemsVal v := by
  unfold totalQtyErrors validate_min_quantity validate_total_qty
  by_cases h0 : v < 0
  · simp [h0]
  · by_cases h1 : v < 3
    · simp [h0, h1]
    · cases itemsVal with
      | none => simp [h0, h1]
      | some items => by_cases h2 : sumQtys items ≠ v <;> simp [h0, h1, h2]

theorem qtyMismatch_not_price (itemsVal : Option (List (String × RawCartItem))) (v : ℚ)
    (m : String) : VError.qtyMismatch m ∉ totalPriceErrors itemsVal v := by
  unfold totalPriceErrors
  by_cases h0 : v < 0
  · simp [h0]
  · rw [if_neg h0]
    cases itemsVal with
    | none => simp [validate_total_price]
    | some items =>
      simp only [validate_total_price]
      by_cases h1 : absQ (sumPrices items - v) > 1 / 100
      · rw [if_pos h1]; simp
      · rw [if_neg h1]; simp

theorem totalQtyErrors_minOrder (itemsVal : Option (List (String × RawCartItem))) (v : Int)
    (h0 : 0 ≤ v) (h3 : v < 3) :
    totalQtyErrors itemsVal v = [.minOrder "Our minimum order size for delivery is 3 items."] := by
  unfold totalQtyErrors validate_min_quantity
  simp [Int.not_lt.mpr h0, h3]

theorem totalPriceErrors_mismatch (items : List (String × RawCartItem)) (v : ℚ)
    (hge : 0 ≤ v) (h : 1 / 100 < absQ (sumPrices items - v)) :
    totalPriceErrors (some items) v =
      [.priceMismatch "Total price does not match sum of item prices"] := by
  unfold totalPriceErrors
  rw [if_neg (not_lt.mpr hge)]
  simp only [validate_total_price]
  rw [if_pos (show absQ (sumPrices items - v) > 1 / 100 from h)]

theorem totalPriceErrors_ok (items : List (String × RawCartItem)) (v : ℚ)
    (hge : 0 ≤ v) (h : absQ (sumPrices items - v) ≤ 1 / 100) :
    totalPriceErrors (some items) v = [] := by
  unfold totalPriceErrors
  rw [if_neg (not_lt.mpr hge)]
  simp only [validate_total_price]
  rw [if_neg (show ¬absQ (sumPrices items - v) > 1 / 100 from not_lt.mpr h)]

theorem validateCart_items_ok (c : RawCart) (hitems : validateItems c.items = []) :
    validateCart c =
      totalQtyErrors (some c.items) c.totalQty ++ totalPriceErrors (some c.items) c.totalPrice := by
  unfold validateCart
  simp [hitems]

/-- C5: for every cart (valid line items, non-negative declared total), if the
absolute difference between the sum of line-item prices and the declared
`totalPrice` exceeds 0.01, cart validation fails with the price-mismatch
error; if the difference is at most 0.01, the price check passes (no
price-mismatch error is produced). -/
theorem price_tolerance (c : RawCart) (hitems : validateItems c.items = [])
    (hge : 0 ≤ c.totalPrice) :
    (1 / 100 < absQ (sumPrices c.items - c.totalPrice) →
      VError.priceMismatch "Total price does not match sum of item prices" ∈ validateCart c ∧
      validateCart c ≠ []) ∧
    (absQ (sumPrices c.items - c.totalPrice) ≤ 1 / 100 →
      ∀ m, VError.priceMismatch m ∉ validateCart c) := by
  rw [validateCart_items_ok c hitems]
  constructor
  · intro h
    rw [totalPriceErrors_mismatch c.items c.totalPrice hge h]
    have hmem : VError.priceMismatch "Total price does not match sum of item prices" ∈
        totalQtyErrors (some c.items) c.totalQty ++
          [VError.priceMismatch "Total price does not match sum of item prices"] :=
      List.mem_append_right _ (List.mem_singleton_self _)
    exact ⟨hmem, List.ne_nil_of_mem hmem⟩
  · intro h m
    rw [totalPriceErrors_ok c.items c.totalPrice hge h, List.append_nil]
    exact priceMismatch_not_qty _ _ m

/-- Witness for C5 at concrete carts: `⟨goodItems, 3, 26⟩` is off by 6 and
fails with the price-mismatch error; `goodCart` (off by 0) passes. -/
theorem price_tolerance_w :
    (VError.priceMismatch "Total price does not match sum of item prices" ∈
        validateCart ⟨goodItems, 3, 26⟩ ∧
      validateCart ⟨goodItems, 3, 26⟩ ≠ []) ∧
    ∀ m, VError.priceMismatch m ∉ validateCart goodCart :=
  ⟨(price_tolerance ⟨goodItems, 3, 26⟩
      (by norm_num [validateItems, validateItem, goodItems])
      (by norm_num)).1
      (by norm_num [sumPrices, goodItems, absQ]),
   (price_tolerance goodCart
      (by norm_num [validateItems, validateItem, goodCart, goodItems])
      (by norm_num [goodCart])).2
      (by norm_num [sumPrices, goodCart, goodItems, absQ])⟩

/-- C6: every cart with non-negative declared `totalQty` below 3 fails
validation with the minimum-order error, whose message contains the literal
threshold character `'3'`, regardless of the line items. -/
theorem min_order_gate (c : RawCart) (h0 : 0 ≤ c.totalQty) (h3 : c.totalQty < 3) :
    VError.minOrder "Our minimum order size for delivery is 3 items." ∈ validateCart c ∧
    validateCart c ≠ [] ∧
    '3' ∈ "Our minimum order size for delivery is 3 items.".data := by
  have hmem : VError.minOrder "Our minimum order size for delivery is 3 items." ∈
      validateCart c := by
    unfold validateCart
    simp only [List.mem_append]
    exact Or.inl (Or.inr (by
      rw [totalQtyErrors_minOrder _ _ h0 h3]
      exact List.mem_singleton_self _))
  exact ⟨hmem, List.ne_nil_of_mem hmem, by decide⟩

/-- Witness for C6: a cart with two valid items and declared quantity 2 is
rejected with the minimum-order error. -/
theorem min_order_gate_w :
    VError.minOrder "Our minimum order size for delivery is 3 items." ∈
      validateCart badPhoneLowQtyReq.order ∧
    validateCart badPhoneLowQtyReq.order ≠ [] ∧
    '3' ∈ "Our minimum order size for delivery is 3 items.".data :=
  min_order_gate badPhoneLowQtyReq.order (by decide) (by decide)

/-! ## Business-hours and handler-stage lemmas -/

theorem validate_business_hours_closed (day : Weekday) (hour : Nat)
    (h : day = .sunday ∨ hour < 8 ∨ 20 ≤ hour) :
    validate_business_hours day hour = (false, "Our business hours are Mon-Sat 8am-8pm.") := by
  rcases h with rfl | h | h
  · rfl
  · cases day <;> simp [validate_business_hours, Weekday.name, h]
  · cases day <;> simp [validate_business_hours, Weekday.name, h, Nat.not_lt.mpr h]

theorem validate_business_hours_open (day : Weekday) (hour : Nat)
    (hday : day ≠ .sunday) (h8 : 8 ≤ hour) (h20 : hour < 20) :
    validate_business_hours day hour = (true, "") := by
  cases day <;>
    simp [validate_business_hours, Weekday.name, Nat.not_lt.mpr h8, Nat.not_le.mpr h20] at hday ⊢

theorem process_order_closed (env : Env) (req : RawOrderRequest)
    (h : env.day = .sunday ∨ env.hour < 8 ∨ 20 ≤ env.hour) :
    process_order env req =
      ⟨.rejected 400 "Our business hours are Mon-Sat 8am-8pm.", noDispatch⟩ := by
  unfold process_order
  rw [validate_business_hours_closed env.day env.hour h]
  rfl

/-- C4: a request evaluated on US-Eastern Sunday (any hour), or with the hour
below 8 or at/after 20, is rejected with HTTP 400 and the fixed business-hours
message; on Monday–Saturday with hour in `[8, 20)` the hours gate passes. -/
theorem business_hours_gate (env : Env) (req : RawOrderRequest) :
    ((env.day = .sunday ∨ env.hour < 8 ∨ 20 ≤ env.hour) →
      (process_order env req).outcome = .rejected 400 "Our business hours are Mon-Sat 8am-8pm.") ∧
    (env.day ≠ .sunday → 8 ≤ env.hour → env.hour < 20 →
      validate_business_hours env.day env.hour = (true, "")) :=
  ⟨fun h => by rw [process_order_closed env req h],
   validate_business_hours_open env.day env.hour⟩

/-- Witness for C4: a Sunday request is rejected with the business-hours
message; Monday at noon passes the gate. -/
theorem business_hours_gate_w :
    (process_order sundayEnv goodReq).outcome =
      .rejected 400 "Our business hours are Mon-Sat 8am-8pm." ∧
    validate_business_hours baseEnv.day baseEnv.hour = (true, "") :=
  ⟨(business_hours_gate sundayEnv goodReq).1 (Or.inl rfl),
   (business_hours_gate baseEnv goodReq).2 (by decide) (by decide) (by decide)⟩

/-- C10: the email-domain check as invoked by the handler (lowercase the
address, then extract the domain and run blocklist + MX + NS) gives the same
outcome on any two addresses that differ only in letter case. -/
theorem domain_check_case_insensitive (env : Env) (e1 e2 : String)
    (h : e1.data.map Char.toLower = e2.data.map Char.toLower) :
    is_domain_real env (lowerStr e1) = is_domain_real env (lowerStr e2) := by
  unfold lowerStr
  rw [h]

/-- Witness for C10 at a concrete pair of addresses differing only in case. -/
theorem domain_check_case_insensitive_w :
    is_domain_real baseEnv (lowerStr "User@EXAMPLE.com") =
      is_domain_real baseEnv (lowerStr "user@example.com") :=
  domain_check_case_insensitive baseEnv "User@EXAMPLE.com" "user@example.com" (by decide)

/-- C2 (amended): for a request that reaches the human-verification stage
(hours gate passed, honeypot empty), a negative turnstile answer is rejected
with HTTP 400 "Security check failed", while a *raising* turnstile call
propagates to the handler's generic `except Exception` clause and yields
HTTP 500 with the generic network message — not a 400 rejection. -/
theorem turnstile_gate (env : Env) (req : RawOrderRequest)
    (hday : env.day ≠ .sunday) (h8 : 8 ≤ env.hour) (h20 : env.hour < 20)
    (hhp : req.verification = "") :
    (env.turnstile = some false →
      (process_order env req).outcome = .rejected 400 "Security check failed") ∧
    (env.turnstile = none →
      (process_order env req).outcome = .rejected 500 "Network error. Please try again.") := by
  unfold process_order
  rw [validate_business_hours_open env.day env.hour hday h8 h20]
  constructor
  · intro ht
    simp [hhp, ht]
  · intro ht
    simp [hhp, ht]

/-- Witness for C2 (amended): concrete negative and raising turnstile
outcomes. -/
theorem turnstile_gate_w :
    (process_order turnstileNoEnv goodReq).outcome = .rejected 400 "Security check failed" ∧
    (process_order turnstileDownEnv goodReq).outcome =
      .rejected 500 "Network error. Please try again." :=
  ⟨(turnstile_gate turnstileNoEnv goodReq (by decide) (by decide) (by decide) rfl).1 rfl,
   (turnstile_gate turnstileDownEnv goodReq (by decide) (by decide) (by decide) rfl).2 rfl⟩

/-- Counterexample to C2 as stated: when the verification call raises, the
handler answers HTTP 500 with the generic network message, not an HTTP 400
rejection. -/
theorem turnstile_gate_cex :
    (process_order turnstileDownEnv goodReq).outcome =
      .rejected 500 "Network error. Please try again." ∧
    (process_order turnstileDownEnv goodReq).outcome.status ≠ 400 := by
  refine ⟨by decide, by decide⟩

theorem is_domain_real_false_of_bad (env : Env) (e : String)
    (hbad : env.blocklist (domainOf e) = true ∨
            env.mxLookup (domainOf e) = .raises ∨
            env.mxLookup (domainOf e) = .records false ∨
            env.nsLookup (domainOf e) = .raises ∨
            env.nsLookup (domainOf e) = .records false) :
    is_domain_real env e = false := by
  unfold is_domain_real
  cases hb : env.blocklist (domainOf e) with
  | true => simp [hb]
  | false =>
    rcases hmx : env.mxLookup (domainOf e) with b | _
    · cases b
      · simp [hb, hmx]
      · rcases hns : env.nsLookup (domainOf e) with c | _
        · cases c
          · simp [hb, hmx, hns]
          · rcases hbad with h | h | h | h | h <;> simp_all
        · simp [hb, hmx, hns]
    · simp [hb, hmx]

/-- C3: for a request that reaches the domain check, a blocklisted domain, a
failed or raising MX resolution, or a failed or raising NS resolution each
lead to the HTTP 400 invalid-email-domain rejection with no dispatch; the
raising cases land in the same rejection because `is_domain_real` catches
every resolver exception itself (fail-closed), so no exception escapes the
domain check. -/
theorem email_domain_gate (env : Env) (req : RawOrderRequest)
    (hday : env.day ≠ .sunday) (h8 : 8 ≤ env.hour) (h20 : env.hour < 20)
    (hhp : req.verification = "") (ht : env.turnstile = some true)
    (hbad : env.blocklist (domainOf (lowerStr req.email)) = true ∨
            env.mxLookup (domainOf (lowerStr req.email)) = .raises ∨
            env.mxLookup (domainOf (lowerStr req.email)) = .records false ∨
            env.nsLookup (domainOf (lowerStr req.email)) = .raises ∨
            env.nsLookup (domainOf (lowerStr req.email)) = .records false) :
    (process_order env req).outcome = .rejected 400 "Please provide a valid email address." ∧
    (process_order env req).dispatch = noDispatch := by
  have hfalse : is_domain_real env (lowerStr req.email) = false :=
    is_domain_real_false_of_bad env (lowerStr req.email) hbad
  unfold process_order
  rw [validate_business_hours_open env.day env.hour hday h8 h20]
  simp [hhp, ht, hfalse]

/-- Witness for C3: with a raising MX resolution the request is rejected with
the invalid-email-domain message and nothing is dispatched. -/
theorem email_domain_gate_w :
    (process_order mxRaisesEnv goodReq).outcome =
      .rejected 400 "Please provide a valid email address." ∧
    (process_order mxRaisesEnv goodReq).dispatch = noDispatch :=
  email_domain_gate mxRaisesEnv goodReq (by decide) (by decide) (by decide) rfl rfl
    (Or.inr (Or.inl rfl))

/-- C9 (amended): for an accepted non-bot request that reaches dispatch,
either both emails send and the handler accepts, or the dispatch is reported
failed with HTTP 500 and the generic message; a reported failure implies the
customer email was not delivered, but the business-owner email may already
have been sent (the sends are sequential). -/
theorem dispatch_gate (env : Env) (req : RawOrderRequest)
    (hday : env.day ≠ .sunday) (h8 : 8 ≤ env.hour) (h20 : env.hour < 20)
    (hhp : req.verification = "") (ht : env.turnstile = some true)
    (hdom : is_domain_real env (lowerStr req.email) = true) :
    (env.ownerSendOk = true → env.customerSendOk = true →
      (process_order env req).outcome = .accepted (orderIdOf env.uuid) "Order placed successfully" ∧
      (process_order env req).dispatch.ownerDelivered = true ∧
      (process_order env req).dispatch.customerDelivered = true) ∧
    ((env.ownerSendOk = false ∨ env.customerSendOk = false) →
      (process_order env req).outcome =
        .rejected 500 "Failed to send order confirmation. Please try again." ∧
      (process_order env req).dispatch.customerDelivered = false) := by
  unfold process_order
  rw [validate_business_hours_open env.day env.hour hday h8 h20]
  constructor
  · intro h1 h2
    simp [hhp, ht, hdom, send_order_emails, h1, h2]
  · rintro (h | h)
    · simp [hhp, ht, hdom, send_order_emails, h]
    · cases ho : env.ownerSendOk <;> simp [hhp, ht, hdom, send_order_emails, h, ho]

/-- Witness for C9 (amended): both sends succeed on `baseEnv`; on
`ownerOnlyEnv` the customer send fails and the handler reports a 500. -/
theorem dispatch_gate_w :
    ((process_order baseEnv goodReq).outcome =
        .accepted (orderIdOf baseEnv.uuid) "Order placed successfully" ∧
      (process_order baseEnv goodReq).dispatch.ownerDelivered = true ∧
      (process_order baseEnv goodReq).dispatch.customerDelivered = true) ∧
    ((process_order ownerOnlyEnv goodReq).outcome =
        .rejected 500 "Failed to send order confirmation. Please try again." ∧
      (process_order ownerOnlyEnv goodReq).dispatch.customerDelivered = false) :=
  ⟨(dispatch_gate baseEnv goodReq (by decide) (by decide) (by decide) rfl rfl
      (by decide)).1 rfl rfl,
   (dispatch_gate ownerOnlyEnv goodReq (by decide) (by decide) (by decide) rfl rfl
      (by decide)).2 (Or.inr rfl)⟩

/-- Counterexample to C9 as stated: on `ownerOnlyEnv` the dispatch is reported
failed (HTTP 500, generic message), yet the business-owner email *was*
delivered — the two sends do not fail together. -/
theorem dispatch_gate_cex :
    (process_order ownerOnlyEnv goodReq).outcome =
      .rejected 500 "Failed to send order confirmation. Please try again." ∧
    (process_order ownerOnlyEnv goodReq).dispatch.ownerDelivered = true := by
  refine ⟨by decide, by decide⟩

/-! ## Honeypot short-circuit -/

theorem hexUpper_good :
    ∀ c ∈ hexLowerChars, (Char.toUpper c).isDigit = true ∨ (Char.toUpper c).isUpper = true := by
  decide

theorem process_order_open_honeypot (env : Env) (req : RawOrderRequest)
    (hday : env.day ≠ .sunday) (h8 : 8 ≤ env.hour) (h20 : env.hour < 20)
    (hhp : req.verification ≠ "") :
    process_order env req =
      ⟨.accepted (orderIdOf env.uuid) "Order placed successfully", noDispatch⟩ := by
  unfold process_order
  rw [validate_business_hours_open env.day env.hour hday h8 h20]
  simp [hhp]

theorem validateCart_goodCart : validateCart goodCart = [] := by
  norm_num [validateCart, validateItems, validateItem, totalQtyErrors, totalPriceErrors,
    validate_min_quantity, validate_total_qty, validate_total_price, sumQtys, sumPrices,
    absQ, goodCart, goodItems]

theorem validate_phone_format_goodPhone :
    validate_phone_format "555-123-4567" = .ok "555-123-4567" := by
  have h0 : phoneMatches "555-123-4567" = true := by decide
  unfold validate_phone_format
  rw [h0]
  rfl

theorem validateOrderRequest_goodReq : validateOrderRequest goodReq = [] := by
  have h2 : emailSyntaxOk "user@example.com" = true := by decide
  simp [validateOrderRequest, goodReq, validate_phone_format_goodPhone, h2,
    validateCart_goodCart]

theorem validateOrderRequest_botReq : validateOrderRequest botReq = [] := by
  have h2 : emailSyntaxOk "user@example.com" = true := by decide
  simp [validateOrderRequest, botReq, goodReq, validate_phone_format_goodPhone, h2,
    validateCart_goodCart]

/-- C1 (amended): for every structurally valid request that passes the
business-hours gate and whose honeypot field `verification` is non-empty, the
handler answers HTTP 200 with `success = true`, the message
"Order placed successfully" and an 8-character order id made of digits and
uppercase letters, and no email send occurs.  (The uuid hypotheses say that
`str(uuid.uuid4())` starts with 8 lowercase hex digits.) -/
theorem honeypot_short_circuit (env : Env) (req : RawOrderRequest)
    (_hvalid : validateOrderRequest req = [])
    (hday : env.day ≠ .sunday) (h8 : 8 ≤ env.hour) (h20 : env.hour < 20)
    (hhp : req.verification ≠ "")
    (hlen : (env.uuid.data.take 8).length = 8)
    (hhex : ∀ c ∈ env.uuid.data.take 8, c ∈ hexLowerChars) :
    (process_order env req).outcome = .accepted (orderIdOf env.uuid) "Order placed successfully" ∧
    (process_order env req).outcome.status = 200 ∧
    (process_order env req).outcome.success = true ∧
    (orderIdOf env.uuid).length = 8 ∧
    (∀ c ∈ (orderIdOf env.uuid).data, c.isDigit = true ∨ c.isUpper = true) ∧
    (process_order env req).dispatch = noDispatch := by
  have hp := process_order_open_honeypot env req hday h8 h20 hhp
  refine ⟨by rw [hp], by rw [hp]; rfl, by rw [hp]; rfl, ?_, ?_, by rw [hp]⟩
  · show ((env.uuid.data.take 8).map Char.toUpper).length = 8
    rw [List.length_map]
    exact hlen
  · intro c hc
    have hc' : c ∈ (env.uuid.data.take 8).map Char.toUpper := hc
    rw [List.mem_map] at hc'
    obtain ⟨a, ha, rfl⟩ := hc'
    exact hexUpper_good a (hhex a ha)

/-- Witness for C1 (amended): the concrete bot request on `baseEnv`. -/
theorem honeypot_short_circuit_w :
    (process_order baseEnv botReq).outcome =
      .accepted (orderIdOf baseEnv.uuid) "Order placed successfully" ∧
    (process_order baseEnv botReq).outcome.status = 200 ∧
    (process_order baseEnv botReq).outcome.success = true ∧
    (orderIdOf baseEnv.uuid).length = 8 ∧
    (∀ c ∈ (orderIdOf baseEnv.uuid).data, c.isDigit = true ∨ c.isUpper = true) ∧
    (process_order baseEnv botReq).dispatch = noDispatch :=
  honeypot_short_circuit baseEnv botReq validateOrderRequest_botReq
    (by decide) (by decide) (by decide) (by decide) (by decide) (by decide)

/-- Counterexample to C1 as stated: `botReq` is structurally valid and has a
non-empty honeypot field, yet on a Sunday the handler answers HTTP 400 with
the business-hours message instead of the claimed HTTP 200 success. -/
theorem honeypot_short_circuit_cex :
    validateOrderRequest botReq = [] ∧
    botReq.verification ≠ "" ∧
    (process_order sundayEnv botReq).outcome =
      .rejected 400 "Our business hours are Mon-Sat 8am-8pm." ∧
    (process_order sundayEnv botReq).outcome.status ≠ 200 :=
  ⟨validateOrderRequest_botReq, by decide, by decide, by decide⟩

/-! ## Error accumulation across fields -/

/-- C8 (amended): schema validation accumulates errors across distinct fields
— a payload with an invalid phone *and* an undersized cart reports both errors
— while within one field's validator chain it stops at the first violated
constraint (with `totalQty < 3` the quantity-sum check never reports). -/
theorem field_error_accumulation (r : RawOrderRequest)
    (hphone : phoneMatches r.phone = false)
    (h0 : 0 ≤ r.order.totalQty) (h3 : r.order.totalQty < 3) :
    VError.phoneFormat "Please enter a valid phone number." ∈ validateOrderRequest r ∧
    VError.minOrder "Our minimum order size for delivery is 3 items." ∈ validateOrderRequest r ∧
    ∀ m, VError.qtyMismatch m ∉ validateOrderRequest r := by
  have hp : validate_phone_format r.phone = .error "Please enter a valid phone number." := by
    unfold validate_phone_format
    rw [hphone]
    rfl
  have hcartMem : VError.minOrder "Our minimum order size for delivery is 3 items." ∈
      validateCart r.order := by
    unfold validateCart
    simp only [List.mem_append]
    exact Or.inl (Or.inr (by
      rw [totalQtyErrors_minOrder _ _ h0 h3]
      exact List.mem_singleton_self _))
  refine ⟨?_, ?_, ?_⟩
  · unfold validateOrderRequest
    rw [hp]
    simp
  · unfold validateOrderRequest
    simp only [List.mem_append]
    exact Or.inr hcartMem
  · intro m hmem
    unfold validateOrderRequest at hmem
    rw [hp] at hmem
    rcases List.mem_append.mp hmem with h | h
    · rcases List.mem_append.mp h with h | h
      · simp at h
      · revert h
        split <;> simp
    · simp only [validateCart, List.mem_append] at h
      rcases h with (h | h) | h
      · rcases validateItems_shapes _ _ h with ⟨k, hk⟩ | ⟨k, hk⟩ | ⟨k, hk⟩ <;>
          exact VError.noConfusion hk
      · rw [totalQtyErrors_minOrder _ _ h0 h3] at h
        simp at h
      · exact qtyMismatch_not_price _ _ m h

theorem validateCart_lowQtyCart :
    validateCart lowQtyCart = [.minOrder "Our minimum order size for delivery is 3 items."] := by
  norm_num [validateCart, validateItems, validateItem, totalQtyErrors, totalPriceErrors,
    validate_min_quantity, validate_total_qty, validate_total_price, sumQtys, sumPrices,
    absQ, lowQtyCart]

/-- Counterexample to C8 as stated: the payload `badPhoneLowQtyReq` violates
two structural constraints (phone format and minimum order size) and its
validation failure reports *both* errors, not just the first one. -/
theorem field_error_accumulation_cex :
    validateOrderRequest badPhoneLowQtyReq =
      [.phoneFormat "Please enter a valid phone number.",
       .minOrder "Our minimum order size for delivery is 3 items."] := by
  have h0 : phoneMatches "12345" = false := by decide
  have h2 : emailSyntaxOk "user@example.com" = true := by decide
  simp [validateOrderRequest, badPhoneLowQtyReq, validate_phone_format, h0, h2,
    validateCart_lowQtyCart]

/-- Witness for C8 (amended) at the concrete two-violation payload. -/
theorem field_error_accumulation_w :
    VError.phoneFormat "Please enter a valid phone number." ∈
      validateOrderRequest badPhoneLowQtyReq ∧
    VError.minOrder "Our minimum order size for delivery is 3 items." ∈
      validateOrderRequest badPhoneLowQtyReq ∧
    ∀ m, VError.qtyMismatch m ∉ validateOrderRequest badPhoneLowQtyReq :=
  field_error_accumulation badPhoneLowQtyReq (by decide) (by decide) (by decide)

/-! ## Characterization of the phone pattern -/

theorem tailRE_rmatch (u : List Char) :
    (spaceStar * optRE (char '\n')).rmatch u = true ↔ tailShape u := by
  rw [mul_rmatch_iff]
  unfold tailShape
  constructor
  · rintro ⟨w, nl, rfl, hw, hnl⟩
    rw [spaceStar_rmatch] at hw
    rw [optRE_rmatch, char_rmatch_iff] at hnl
    exact ⟨w, nl, hw, hnl, rfl⟩
  · rintro ⟨w, nl, hw, hnl, rfl⟩
    refine ⟨w, nl, rfl, (spaceStar_rmatch w).mpr hw, (optRE_rmatch _ nl).mpr ?_⟩
    rcases hnl with rfl | rfl
    · exact Or.inl rfl
    · exact Or.inr ((char_rmatch_iff _ _).mpr rfl)

theorem gapRE_rmatch (u : List Char) :
    (spaceStar * optRE (classRE sepChars)).rmatch u = true ↔ gapShape u := by
  rw [mul_rmatch_iff]
  unfold gapShape optCharOf
  constructor
  · rintro ⟨w, t, rfl, hw, ht⟩
    rw [spaceStar_rmatch] at hw
    rw [optRE_rmatch, classRE_rmatch] at ht
    exact ⟨w, t, hw, ht, rfl⟩
  · rintro ⟨w, t, hw, ht, rfl⟩
    refine ⟨w, t, rfl, (spaceStar_rmatch w).mpr hw, (optRE_rmatch _ t).mpr ?_⟩
    rcases ht with rfl | ⟨c, hc, rfl⟩
    · exact Or.inl rfl
    · exact Or.inr ((classRE_rmatch _ _).mpr ⟨c, hc, rfl⟩)

theorem dig3_rmatch (u : List Char) :
    (digitRE * (digitRE * digitRE)).rmatch u = true ↔ dig3 u := by
  unfold digitRE
  rw [mul_rmatch_iff]
  unfold dig3
  constructor
  · rintro ⟨t1, u1, rfl, h1, h23⟩
    rw [classRE_rmatch] at h1
    rw [mul_rmatch_iff] at h23
    obtain ⟨t2, t3, rfl, h2, h3⟩ := h23
    rw [classRE_rmatch] at h2 h3
    obtain ⟨c1, hc1, rfl⟩ := h1
    obtain ⟨c2, hc2, rfl⟩ := h2
    obtain ⟨c3, hc3, rfl⟩ := h3
    exact ⟨c1, c2, c3, hc1, hc2, hc3, rfl⟩
  · rintro ⟨c1, c2, c3, hc1, hc2, hc3, rfl⟩
    exact ⟨[c1], [c2, c3], rfl, (classRE_rmatch _ _).mpr ⟨c1, hc1, rfl⟩,
      (mul_rmatch_iff _ _ _).mpr ⟨[c2], [c3], rfl, (classRE_rmatch _ _).mpr ⟨c2, hc2, rfl⟩,
        (classRE_rmatch _ _).mpr ⟨c3, hc3, rfl⟩⟩⟩

theorem dig4_rmatch (u : List Char) :
    (digitRE * (digitRE * (digitRE * digitRE))).rmatch u = true ↔ dig4 u := by
  unfold digitRE
  rw [mul_rmatch_iff]
  unfold dig4
  constructor
  · rintro ⟨t1, u1, rfl, h1, h234⟩
    rw [classRE_rmatch] at h1
    rw [mul_rmatch_iff] at h234
    obtain ⟨t2, u2, rfl, h2, h34⟩ := h234
    rw [classRE_rmatch] at h2
    rw [mul_rmatch_iff] at h34
    obtain ⟨t3, t4, rfl, h3, h4⟩ := h34
    rw [classRE_rmatch] at h3 h4
    obtain ⟨c1, hc1, rfl⟩ := h1
    obtain ⟨c2, hc2, rfl⟩ := h2
    obtain ⟨c3, hc3, rfl⟩ := h3
    obtain ⟨c4, hc4, rfl⟩ := h4
    exact ⟨c1, c2, c3, c4, hc1, hc2, hc3, hc4, rfl⟩
  · rintro ⟨c1, c2, c3, c4, hc1, hc2, hc3, hc4, rfl⟩
    exact ⟨[c1], [c2, c3, c4], rfl, (classRE_rmatch _ _).mpr ⟨c1, hc1, rfl⟩,
      (mul_rmatch_iff _ _ _).mpr ⟨[c2], [c3, c4], rfl, (classRE_rmatch _ _).mpr ⟨c2, hc2, rfl⟩,
        (mul_rmatch_iff _ _ _).mpr ⟨[c3], [c4], rfl, (classRE_rmatch _ _).mpr ⟨c3, hc3, rfl⟩,
          (classRE_rmatch _ _).mpr ⟨c4, hc4, rfl⟩⟩⟩⟩

theorem preRE_rmatch (u : List Char) :
    (optRE (optRE (char '+') * (char '1' * (spaceStar * classRE sepRangeChars)))).rmatch u = true
      ↔ preShape u := by
  rw [optRE_rmatch]
  unfold preShape
  constructor
  · rintro (rfl | h)
    · exact Or.inl rfl
    · rw [mul_rmatch_iff] at h
      obtain ⟨p, rest, rfl, hp, hrest⟩ := h
      rw [optRE_rmatch, char_rmatch_iff] at hp
      rw [mul_rmatch_iff] at hrest
      obtain ⟨o, rest2, rfl, ho, hrest2⟩ := hrest
      rw [char_rmatch_iff] at ho
      subst ho
      rw [mul_rmatch_iff] at hrest2
      obtain ⟨w, t, rfl, hw, ht⟩ := hrest2
      rw [spaceStar_rmatch] at hw
      rw [classRE_rmatch] at ht
      obtain ⟨c, hc, rfl⟩ := ht
      exact Or.inr ⟨p, w, c, hp, hw, hc, rfl⟩
  · rintro (rfl | ⟨p, w, c, hp, hw, hc, rfl⟩)
    · exact Or.inl rfl
    · refine Or.inr ?_
      rw [mul_rmatch_iff]
      refine ⟨p, '1' :: (w ++ [c]), rfl, ?_, ?_⟩
      · rw [optRE_rmatch, char_rmatch_iff]
        exact hp
      · rw [mul_rmatch_iff]
        refine ⟨['1'], w ++ [c], rfl, (char_rmatch_iff _ _).mpr rfl, ?_⟩
        rw [mul_rmatch_iff]
        exact ⟨w, [c], rfl, (spaceStar_rmatch _).mpr hw, (classRE_rmatch _ _).mpr ⟨c, hc, rfl⟩⟩

theorem PHONE_PATTERN_rmatch (s : List Char) :
    PHONE_PATTERN.rmatch s = true ↔ PhoneShape s := by
  unfold PHONE_PATTERN PhoneShape
  rw [mul_rmatch_iff]
  constructor
  · rintro ⟨p, r1, rfl, hp, h1⟩
    rw [preRE_rmatch] at hp
    rw [mul_rmatch_iff] at h1
    obtain ⟨g1, r2, rfl, hg1, h2⟩ := h1
    rw [dig3_rmatch] at hg1
    rw [mul_rmatch_iff] at h2
    obtain ⟨a, r3, rfl, ha, h3⟩ := h2
    rw [gapRE_rmatch] at ha
    rw [mul_rmatch_iff] at h3
    obtain ⟨g2, r4, rfl, hg2, h4⟩ := h3
    rw [dig3_rmatch] at hg2
    rw [mul_rmatch_iff] at h4
    obtain ⟨b, r5, rfl, hb, h5⟩ := h4
    rw [gapRE_rmatch] at hb
    rw [mul_rmatch_iff] at h5
    obtain ⟨g3, t, rfl, hg3, ht⟩ := h5
    rw [dig4_rmatch] at hg3
    rw [tailRE_rmatch] at ht
    exact ⟨p, g1, a, g2, b, g3, t, hp, hg1, ha, hg2, hb, hg3, ht, rfl⟩
  · rintro ⟨p, g1, a, g2, b, g3, t, hp, hg1, ha, hg2, hb, hg3, ht, rfl⟩
    refine ⟨p, g1 ++ (a ++ (g2 ++ (b ++ (g3 ++ t)))), rfl, (preRE_rmatch p).mpr hp, ?_⟩
    rw [mul_rmatch_iff]
    refine ⟨g1, a ++ (g2 ++ (b ++ (g3 ++ t))), rfl, (dig3_rmatch g1).mpr hg1, ?_⟩
    rw [mul_rmatch_iff]
    refine ⟨a, g2 ++ (b ++ (g3 ++ t)), rfl, (gapRE_rmatch a).mpr ha, ?_⟩
    rw [mul_rmatch_iff]
    refine ⟨g2, b ++ (g3 ++ t), rfl, (dig3_rmatch g2).mpr hg2, ?_⟩
    rw [mul_rmatch_iff]
    refine ⟨b, g3 ++ t, rfl, (gapRE_rmatch b).mpr hb, ?_⟩
    rw [mul_rmatch_iff]
    exact ⟨g3, t, rfl, (dig4_rmatch g3).mpr hg3, (tailRE_rmatch t).mpr ht⟩

theorem validate_phone_format_ok_iff (s : String) :
    validate_phone_format s = .ok s ↔ phoneMatches s = true := by
  unfold validate_phone_format
  cases h : phoneMatches s
  · simp [h]
  · simp [h]

/-- C7 (amended): the phone validator accepts a string exactly when it has the
shape `PhoneShape`: an optional prefix consisting of an optional `+`, the
digit `1`, any spaces, and then exactly one character of the ASCII range
space…`.` (which contains space, dot and hyphen, but also `!"#$%&'()*+,`);
then 3-3-4 digit groups where each inter-group separator is any spaces
followed by at most one space/dot/hyphen; then trailing spaces and an optional
final newline. -/
theorem phone_pattern_form (s : String) :
    validate_phone_format s = .ok s ↔ PhoneShape s.data := by
  rw [validate_phone_format_ok_iff]
  unfold phoneMatches
  exact PHONE_PATTERN_rmatch s.data

/-- Counterexample to C7 as stated: `"+1!5551234567"` is accepted by the
validator but is not of the claimed form (`!` is neither part of a `+1`/`1`
prefix nor a space/dot/hyphen separator), while `"15551234567"` is of the
claimed form (prefix `1`, empty separators) but is rejected by the validator. -/
theorem phone_pattern_cex :
    validate_phone_format "+1!5551234567" = .ok "+1!5551234567" ∧
    PHONE_SPEC_FORM.rmatch "+1!5551234567".data = false ∧
    PHONE_SPEC_FORM.rmatch "15551234567".data = true ∧
    validate_phone_format "15551234567" = .error "Please enter a valid phone number." := by
  refine ⟨?_, by decide, by decide, ?_⟩
  · have h : phoneMatches "+1!5551234567" = true := by decide
    unfold validate_phone_format
    rw [h]
    rfl
  · have h : phoneMatches "15551234567" = false := by decide
    unfold validate_phone_format
    rw [h]
    rfl

end PlaceOrder
